import Mathlib

/-!
Shallow embedding of the `jppdf`/`pdfjp` CLI drivers (src/src/jppdf/cli.py and
src/src/pdfjp/cli.py).  The two files are near-duplicate Selenium drivers that
upload a PDF to a web translation service, wait for the translated file to
appear in an ephemeral staging (download) directory, and rename it next to the
input with a `_ja` suffix.

Modelling conventions:
* A filesystem `FS` maps path strings to optional file contents.  Mutations of
  the real filesystem (`Path.unlink`, `Path.rename`, `Path.write_bytes`)
  become pure updates of an `FS` value.
* The asynchronously produced staged file (written by the browser into the
  download directory) is represented by an observation function
  `obs : Nat → Option Content` giving, for each 1-second poll index `i`
  (the check performed after the `(i+1)`-th `time.sleep(1)`), whether
  `staging_area / source_path.name` exists and with which content.
* Selenium and Python exceptions become constructors of `Err`; a fallible
  operation returns `Except Err _`.
* Python `pathlib` names are modelled as `List Char`, with `stem`, `suffix`,
  `with_stem`, `with_name` and `Path(...).name` translated from CPython's
  `pathlib` semantics (the rightmost-dot split used by `stem`/`suffix`, and
  component parsing that drops empty and `"."` components).
-/

namespace JpPdf

/-- Bytes of a file, abstracted to a string. -/
abbrev Content := String

/-- A filesystem: maps a path (as a string) to the content of the file there,
or `none` when no file exists at that path. -/
abbrev FS := String → Option Content

/-- Point update of a filesystem: the file at `p` becomes `c` (with
`c = none` meaning removal), all other paths unchanged. -/
def fsUpdate (fs : FS) (p : String) (c : Option Content) : FS :=
  fun q => if q = p then c else fs q

/-- Errors raised by the Python code: `NoSuchElementException` from
`find_element`, `TimeoutException` from `WebDriverWait.until`, the
`TimeoutError` raised by `Driver.wait` / `Driver.wait_to_finish`, and
`AttributeError` from accessing a never-assigned attribute. -/
inductive Err where
  | noSuchElement (locator : String)
  | seleniumTimeout
  | timeoutError (msg : String)
  | attributeError (attr : String)
deriving DecidableEq

/-- The local `timeout = 10` of `Driver.wait` (jppdf cli.py line 102) and
`Driver.wait_to_finish` (pdfjp cli.py line 116): the number of 1-second polls
of the staging area. -/
def waitTimeout : Nat := 10

/-- The message of the `TimeoutError` raised when the polling budget is
exhausted: `f"Timeout: {timeout} sec"` (jppdf cli.py line 112). -/
def timeoutMsg (t : Nat) : String := "Timeout: " ++ toString t ++ " sec"

/-- `self.path_ja.unlink(missing_ok=True)` (jppdf cli.py line 108): remove the
file at `p` if present; no error when absent. -/
def unlinkMissingOk (fs : FS) (p : String) : FS := fsUpdate fs p none

/-- `path.rename(self.path_ja)` (jppdf cli.py line 109): the staged file at
`sp`, whose observed content is `c`, is moved to `dp`. -/
def renameStaged (fs : FS) (sp dp : String) (c : Content) : FS :=
  fsUpdate (fsUpdate fs sp none) dp (some c)

/-- The body of the `if path.exists():` branch of the polling loop: first
unlink any pre-existing file at the destination `dp`, then rename the staged
file at `sp` (content `c`) into `dp`. -/
def finishEffect (fs : FS) (sp dp : String) (c : Content) : FS :=
  renameStaged (unlinkMissingOk fs dp) sp dp c

/-- The polling loop of `Driver.wait` / `Driver.wait_to_finish`:
`for _ in range(timeout): time.sleep(1); if path.exists(): ... break` with a
`for`-`else` raising `TimeoutError`.  `i` is the index of the next poll, `n`
the number of polls still allowed.  `obs i` is the staged file observed at
poll `i` (the `path.exists()` check after the `(i+1)`-th sleep). -/
def waitFrom (obs : Nat → Option Content) (sp dp : String) (fs : FS) :
    Nat → Nat → Except Err FS
  | _, 0 => Except.error (Err.timeoutError (timeoutMsg waitTimeout))
  | i, n + 1 =>
    match obs i with
    | some c => Except.ok (finishEffect fs sp dp c)
    | none => waitFrom obs sp dp fs (i + 1) n

/-- `Driver.wait` (jppdf cli.py lines 101-113) and `Driver.wait_to_finish`
(pdfjp cli.py lines 115-127): poll the staging area once per second for at
most `waitTimeout = 10` attempts; on first detection unlink the destination
and rename the staged file into it; otherwise raise `TimeoutError`. -/
def wait (obs : Nat → Option Content) (sp dp : String) (fs : FS) :
    Except Err FS :=
  waitFrom obs sp dp fs 0 waitTimeout

/-! ### Python `pathlib` name arithmetic, for `path.with_stem(f"{path.stem}_ja")` -/

/-- Index of the last occurrence of `c` in `l` (Python `str.rfind`, with
`none` for the -1 "not found" result). -/
def pyRfind (c : Char) : List Char → Option Nat
  | [] => none
  | x :: xs =>
    match pyRfind c xs with
    | some i => some (i + 1)
    | none => if x = c then some 0 else none

/-- The split point used by `PurePath.stem` / `PurePath.suffix`:
`i = name.rfind('.')`, kept only when `0 < i < len(name) - 1`. -/
def pySuffixIdx (name : List Char) : Option Nat :=
  match pyRfind '.' name with
  | some i => if 0 < i ∧ i < name.length - 1 then some i else none
  | none => none

/-- `PurePath.stem`: the file name without its (final) suffix. -/
def pyStem (name : List Char) : List Char :=
  match pySuffixIdx name with
  | some i => name.take i
  | none => name

/-- `PurePath.suffix`: the final `".ext"` component of the name, or empty. -/
def pySuffix (name : List Char) : List Char :=
  match pySuffixIdx name with
  | some i => name.drop i
  | none => []

/-- A `pathlib.Path`, split into its parent directory (kept opaque) and its
final name component. -/
structure PyPath where
  dir : String
  name : List Char
deriving DecidableEq

/-- `PurePath.with_name`: replace the final component. -/
def pyWithName (p : PyPath) (n : List Char) : PyPath :=
  { dir := p.dir, name := n }

/-- `PurePath.with_stem(stem)` = `with_name(stem + suffix)`. -/
def pyWithStem (p : PyPath) (s : List Char) : PyPath :=
  pyWithName p (s ++ pySuffix p.name)

/-- `self.path_ja = path.with_stem(f"{path.stem}_ja")` (jppdf cli.py line 76,
pdfjp cli.py line 83): the destination path computed at `Driver` construction. -/
def pathJa (p : PyPath) : PyPath :=
  pyWithStem p (pyStem p.name ++ "_ja".toList)

/-! ### The workflow of `Driver.run` -/

/-- The steps of the workflow, in the order `Driver.run` performs them:
`driver.get(url)`; `select_file` (locate the `file` input and send the path);
the click on the 翻訳 (translate) button; the wait for the 翻訳をダウンロード
(download translation) button to become clickable; the click on it; and the
polling wait for the staged file. -/
inductive Step where
  | navigate
  | selectFile
  | translateClick
  | completionWait
  | downloadClick
  | fileWait
deriving DecidableEq

/-- The full linear order of workflow steps. -/
def allSteps : List Step :=
  [Step.navigate, Step.selectFile, Step.translateClick, Step.completionWait,
   Step.downloadClick, Step.fileWait]

/-- The log records emitted by the driver during `run`. -/
inductive LogEvent where
  | selected (name : List Char)
  | translating
  | savingAs (name : List Char)
  | done
deriving DecidableEq

/-- The string each log record renders to (`logger.info` format arguments
already substituted). -/
def LogEvent.render : LogEvent → String
  | LogEvent.selected n => "Selected: '" ++ String.mk n ++ "'"
  | LogEvent.translating => "Translating..."
  | LogEvent.savingAs n => "Saving as: '" ++ String.mk n ++ "'"
  | LogEvent.done => "Done."

/-- The behaviour of the external world during one run: whether the `file`
input element is present, whether the 翻訳 button interaction succeeds,
whether the 翻訳をダウンロード button becomes clickable within its wait's
timeout, and the staged-file observations of the polling loop. -/
structure Env where
  fileInputFound : Bool
  translateOk : Bool
  downloadClickable : Bool
  stagedObs : Nat → Option Content

/-- Result of a run: the outcome (success or the propagated exception), the
final filesystem, the steps that were started, and the log records emitted. -/
structure RunResult where
  outcome : Except Err Unit
  fs : FS
  trace : List Step
  logs : List LogEvent

/-- `Driver.run` (jppdf cli.py lines 121-126, pdfjp cli.py lines 133-138):
`driver.get(url); select_file(); translate(); save(); logger.info("Done.")`.
Any exception unwinds the run immediately; there is no handler and no retry.
`terr` is the exception the translate-button step raises when it fails
(`TimeoutException` in jppdf, where `translate` waits via `Driver.click`;
`NoSuchElementException` in pdfjp, where it uses `find_element`).  `sp` is
`options.download_dir / path.name`, `dp` the rendered `path_ja`, `srcName`
`path.name` and `dstName` `path_ja.name`. -/
def runGen (terr : Err) (env : Env) (sp dp : String)
    (srcName dstName : List Char) (fs : FS) : RunResult :=
  if !env.fileInputFound then
    { outcome := Except.error (Err.noSuchElement "file"), fs := fs,
      trace := [Step.navigate, Step.selectFile], logs := [] }
  else if !env.translateOk then
    { outcome := Except.error terr, fs := fs,
      trace := [Step.navigate, Step.selectFile, Step.translateClick],
      logs := [LogEvent.selected srcName] }
  else if !env.downloadClickable then
    { outcome := Except.error Err.seleniumTimeout, fs := fs,
      trace := [Step.navigate, Step.selectFile, Step.translateClick,
                Step.completionWait],
      logs := [LogEvent.selected srcName, LogEvent.translating] }
  else
    match wait env.stagedObs sp dp fs with
    | Except.error e =>
      { outcome := Except.error e, fs := fs,
        trace := allSteps,
        logs := [LogEvent.selected srcName, LogEvent.translating,
                 LogEvent.savingAs dstName] }
    | Except.ok fs' =>
      { outcome := Except.ok (), fs := fs',
        trace := allSteps,
        logs := [LogEvent.selected srcName, LogEvent.translating,
                 LogEvent.savingAs dstName, LogEvent.done] }

/-! ### Timeout wiring of the completion wait (claim about both variants) -/

/-- The generic UI-click timeout hardcoded in jppdf `Driver.click`:
`WebDriverWait(self.driver, 10)` (jppdf cli.py line 92). -/
def jppdfClickTimeout : Nat := 10

/-- The timeout jppdf uses to wait for the 翻訳をダウンロード button:
`Driver.save` (jppdf cli.py lines 115-119) performs this wait by calling
`Driver.click`, so the completion wait runs with whatever timeout the generic
click helper uses; the dependence is made explicit by parametrising over it. -/
def jppdfCompletionWaitTimeout (clickTimeout : Nat) : Nat := clickTimeout

/-- `TRANSLATION_TIMEOUT = 20` (pdfjp cli.py line 22). -/
def TRANSLATION_TIMEOUT : Nat := 20

/-- The timeout pdfjp uses to wait for the 翻訳をダウンロード button:
`Driver.translate` calls `wait_button(xpath, TRANSLATION_TIMEOUT)` (pdfjp
cli.py line 113), a dedicated constant that does not depend on any generic
click timeout. -/
def pdfjpCompletionWaitTimeout (_clickTimeout : Nat) : Nat :=
  TRANSLATION_TIMEOUT

/-! ### Driver construction and `__del__` teardown -/

/-- The attribute state of a jppdf/pdfjp `Driver` object after `__init__`
either completed or raised at the `Chrome(options=self.options)` launch.
`__init__` assigns `self.path`, `self.path_ja` and `self.options` before the
launch; `self.driver` is assigned only if the launch returned. -/
structure DriverObj where
  path : PyPath
  path_ja : PyPath
  optionsSet : Bool
  driver : Option Unit

/-- `Driver.__init__(path)` with the Chrome launch either succeeding
(`launchOk = true`) or raising (leaving `self.driver` unassigned). -/
def driverInit (p : PyPath) (launchOk : Bool) : DriverObj :=
  { path := p, path_ja := pathJa p, optionsSet := true,
    driver := if launchOk then some () else none }

/-- `Driver.__del__(self)`: `self.driver.quit()` (jppdf cli.py lines 83-84).
Reading `self.driver` raises `AttributeError` when `__init__` failed before
the assignment. -/
def driverDel (d : DriverObj) : Except Err Unit :=
  match d.driver with
  | some _ => Except.ok ()
  | none => Except.error (Err.attributeError "driver")

/-! ### `is_url`, `main` routing and `download` (pdfjp only) -/

/-- Whether `pre` is an initial segment of `l` (Python `str.startswith`). -/
def beginsWith : List Char → List Char → Bool
  | [], _ => true
  | _ :: _, [] => false
  | p :: ps, c :: cs => p == c && beginsWith ps cs

/-- `is_url(target)` = `target.startswith("http")` (pdfjp cli.py
lines 150-151). -/
def is_url (target : String) : Bool :=
  beginsWith "http".toList target.toList

/-- How `main` resolves its `target` argument. -/
inductive Resolved where
  | downloaded (url : String)
  | localPath (p : String)
deriving DecidableEq

/-- pdfjp `main` line 177:
`path = download(target) if is_url(target) else Path(target)`. -/
def resolveTarget (target : String) : Resolved :=
  if is_url target then Resolved.downloaded target else Resolved.localPath target

/-- Split a character list at every occurrence of `c` (Python
`str.split(c)`): the result always has one more part than there are
separators. -/
def splitOnChar (c : Char) : List Char → List (List Char)
  | [] => [[]]
  | x :: xs =>
    match splitOnChar c xs with
    | [] => if x = c then [[], []] else [[x]]
    | y :: ys => if x = c then [] :: y :: ys else (x :: y) :: ys

/-- `Path(url).name`: `pathlib` parses a path string into components,
dropping empty components (runs of `/`) and `"."` components; `name` is the
last remaining component, or empty when there is none. -/
def pyPathName (s : String) : List Char :=
  ((splitOnChar '/' s.toList).filter
    (fun comp => !(comp == [] || comp == ['.']))).getLastD []

/-- Whether `suf` is a final segment of `l` (Python `str.endswith`). -/
def endsWithL (l suf : List Char) : Bool :=
  suf == l.drop (l.length - suf.length)

/-- The local file name `download` writes to (pdfjp cli.py lines 168-169):
`basename = Path(url).name;
filename = Path(basename if basename.endswith(".pdf") else f"{basename}.pdf")`,
a relative path, hence a file in the current working directory. -/
def downloadName (url : String) : List Char :=
  let basename := pyPathName url
  if endsWithL basename ".pdf".toList then basename
  else basename ++ ".pdf".toList

/-- `download(url)` (pdfjp cli.py lines 154-171).  `fetchOk` is whether
`requests.get` returned without `Timeout` (otherwise `sys.exit(1)`),
`metadata` the PDF metadata of the response body (`sys.exit(1)` when `None`),
`content` the response bytes, and `cwd` the filesystem of the current working
directory keyed by relative path.  On success it writes `content` to the
computed file name (`Path.write_bytes` truncates, overwriting any existing
file) and returns the name. -/
def download (fetchOk : Bool) (metadata : Option String) (url : String)
    (content : Content) (cwd : FS) : Except Nat (String × FS) :=
  if !fetchOk then Except.error 1
  else
    match metadata with
    | none => Except.error 1
    | some _ =>
      let filename := String.mk (downloadName url)
      Except.ok (filename, fsUpdate cwd filename (some content))

/-! ### Concrete data used by the witnesses -/

/-- A staged-file observation trace for witnesses: the translated file, with
content `"TRANSLATED"`, is present from poll 2 on. -/
def wObs : Nat → Option Content :=
  fun i => if 2 ≤ i then some "TRANSLATED" else none

/-- An initially empty filesystem. -/
def emptyFS : FS := fun _ => none

/-- A destination directory that already holds an old file at
`"report_ja.pdf"`. -/
def oldFS : FS :=
  fun p => if p = "report_ja.pdf" then some "OLD" else none

/-- A current working directory that already holds a file named
`report.pdf`. -/
def oldCwd : FS :=
  fun p => if p = "report.pdf" then some "OLD" else none

/-- An environment in which every browser interaction succeeds and the staged
file appears at poll 2. -/
def envOk : Env :=
  { fileInputFound := true, translateOk := true, downloadClickable := true,
    stagedObs := wObs }

/-- An environment in which the staged file never appears. -/
def envNoFile : Env :=
  { fileInputFound := true, translateOk := true, downloadClickable := true,
    stagedObs := fun _ => none }

/-- An environment in which the 翻訳をダウンロード button never becomes
clickable within its wait's timeout. -/
def envNoDownload : Env :=
  { fileInputFound := true, translateOk := true, downloadClickable := false,
    stagedObs := fun _ => none }

/-! ## Helper lemmas -/

/-- Characterisation of a successful polling loop: success pinpoints a first
poll `k` within the budget at which the staged file was observed, and the
returned filesystem is the unlink-then-rename effect applied at that poll's
content. -/
theorem waitFrom_ok_spec (obs : Nat → Option Content) (sp dp : String)
    (fs : FS) :
    ∀ n i fs', waitFrom obs sp dp fs i n = Except.ok fs' →
      ∃ k c, i ≤ k ∧ k < i + n ∧ obs k = some c ∧
        (∀ j, i ≤ j → j < k → obs j = none) ∧
        fs' = finishEffect fs sp dp c := by
  intro n
  induction n with
  | zero =>
    intro i fs' h
    simp [waitFrom] at h
  | succ m ih =>
    intro i fs' h
    rw [waitFrom] at h
    cases hobs : obs i with
    | some c =>
      rw [hobs] at h
      simp at h
      exact ⟨i, c, Nat.le_refl i, by omega, hobs,
        fun j hj1 hj2 => by omega, h.symm⟩
    | none =>
      rw [hobs] at h
      obtain ⟨k, c, hk1, hk2, hkobs, hfirst, hfs⟩ := ih (i + 1) fs' h
      refine ⟨k, c, by omega, by omega, hkobs, ?_, hfs⟩
      intro j hj1 hj2
      rcases Nat.eq_or_lt_of_le hj1 with hji | hji
      · rw [← hji]; exact hobs
      · exact hfirst j hji hj2

/-- If the staged file is observed at none of the polls in the budget, the
polling loop raises the `TimeoutError`. -/
theorem waitFrom_timeout (obs : Nat → Option Content) (sp dp : String)
    (fs : FS) :
    ∀ n i, (∀ j, i ≤ j → j < i + n → obs j = none) →
      waitFrom obs sp dp fs i n =
        Except.error (Err.timeoutError (timeoutMsg waitTimeout)) := by
  intro n
  induction n with
  | zero => intro i _; rfl
  | succ m ih =>
    intro i hobs
    have h0 : obs i = none := hobs i (Nat.le_refl i) (by omega)
    rw [waitFrom, h0]
    exact ih (i + 1) (fun j hj1 hj2 => hobs j (by omega) (by omega))

/-- `pyStem` and `pySuffix` recombine to the original name. -/
theorem pyStem_append_pySuffix (n : List Char) :
    pyStem n ++ pySuffix n = n := by
  unfold pyStem pySuffix
  cases h : pySuffixIdx n with
  | none => simp
  | some i => simp

/-- `beginsWith p l` is exactly "`l` starts with the segment `p`". -/
theorem beginsWith_iff (p : List Char) :
    ∀ l, beginsWith p l = true ↔ ∃ r, l = p ++ r := by
  induction p with
  | nil =>
    intro l
    simp [beginsWith]
  | cons x xs ih =>
    intro l
    cases l with
    | nil =>
      simp [beginsWith]
    | cons c cs =>
      rw [beginsWith, Bool.and_eq_true, beq_iff_eq, ih cs]
      constructor
      · rintro ⟨hx, r, hr⟩
        exact ⟨r, by simp [hx, hr]⟩
      · rintro ⟨r, hr⟩
        simp at hr
        exact ⟨hr.1.symm, r, hr.2⟩

/-! ## Claim theorems -/

/-- C1: `Driver.wait` / `Driver.wait_to_finish` polls for the staged file at
most `waitTimeout = 10` times (once per second); whenever it succeeds there is
a first poll `k < 10` at which the staged file (content `c`) existed, the
resulting filesystem is obtained by first unlinking any pre-existing file at
the destination and then renaming the staged file into it, and therefore the
file at the destination after a successful run is the newly staged one and
the staged source is gone. -/
theorem C1_wait_first_detection (obs : Nat → Option Content) (sp dp : String)
    (fs : FS) (fs' : FS) (h : wait obs sp dp fs = Except.ok fs') :
    waitTimeout = 10 ∧
    ∃ k c, k < waitTimeout ∧ obs k = some c ∧
      (∀ j, j < k → obs j = none) ∧
      fs' = renameStaged (unlinkMissingOk fs dp) sp dp c ∧
      fs' dp = some c ∧ (sp ≠ dp → fs' sp = none) := by
  obtain ⟨k, c, hk1, hk2, hkobs, hfirst, hfs⟩ :=
    waitFrom_ok_spec obs sp dp fs waitTimeout 0 fs' h
  refine ⟨rfl, k, c, by omega, hkobs,
    fun j hj => hfirst j (Nat.zero_le j) hj, hfs, ?_, ?_⟩
  · rw [hfs]
    simp [finishEffect, renameStaged, unlinkMissingOk, fsUpdate]
  · intro hne
    rw [hfs]
    simp [finishEffect, renameStaged, unlinkMissingOk, fsUpdate, hne]

/-- C1 witness: with the staged file appearing at poll 2 over a destination
directory that already holds `report_ja.pdf`, the wait succeeds and the
conclusion of `C1_wait_first_detection` holds. -/
theorem C1_wait_first_detection_witness :
    waitTimeout = 10 ∧
    ∃ k c, k < waitTimeout ∧ wObs k = some c ∧
      (∀ j, j < k → wObs j = none) ∧
      finishEffect oldFS "staging/report.pdf" "report_ja.pdf" "TRANSLATED" =
        renameStaged (unlinkMissingOk oldFS "report_ja.pdf")
          "staging/report.pdf" "report_ja.pdf" c ∧
      finishEffect oldFS "staging/report.pdf" "report_ja.pdf" "TRANSLATED"
          "report_ja.pdf" = some c ∧
      ("staging/report.pdf" ≠ "report_ja.pdf" →
        finishEffect oldFS "staging/report.pdf" "report_ja.pdf" "TRANSLATED"
          "staging/report.pdf" = none) :=
  C1_wait_first_detection wObs "staging/report.pdf" "report_ja.pdf" oldFS
    (finishEffect oldFS "staging/report.pdf" "report_ja.pdf" "TRANSLATED") rfl

/-- C2: the destination path computed at `Driver` construction is the source
path with `_ja` inserted between the stem and the extension, its directory is
unchanged, it never equals the source path, and concretely `report.pdf` maps
to `report_ja.pdf`. -/
theorem C2_pathJa_suffix_insertion :
    (∀ p : PyPath,
      (pathJa p).dir = p.dir ∧
      (pathJa p).name = pyStem p.name ++ "_ja".toList ++ pySuffix p.name ∧
      pathJa p ≠ p) ∧
    pathJa { dir := ".", name := "report.pdf".toList } =
      { dir := ".", name := "report_ja.pdf".toList } := by
  constructor
  · intro p
    refine ⟨rfl, by simp [pathJa, pyWithStem, pyWithName], ?_⟩
    intro h
    have hname : (pathJa p).name = p.name := by rw [h]
    have h1 : ((pyStem p.name ++ "_ja".toList) ++ pySuffix p.name).length
        = p.name.length := by
      have : (pathJa p).name = (pyStem p.name ++ "_ja".toList) ++ pySuffix p.name := by
        simp [pathJa, pyWithStem, pyWithName]
      rw [← this, hname]
    have h2 : (pyStem p.name).length + (pySuffix p.name).length
        = p.name.length := by
      have := congrArg List.length (pyStem_append_pySuffix p.name)
      simpa using this
    have h3 : ("_ja".toList).length = 3 := rfl
    simp [List.length_append] at h1
    omega
  · decide

/-- C2 witness: the general statement instantiated at `report.pdf`. -/
theorem C2_pathJa_suffix_insertion_witness :
    pathJa { dir := ".", name := "report.pdf".toList } ≠
      { dir := ".", name := "report.pdf".toList } :=
  (C2_pathJa_suffix_insertion.1 { dir := ".", name := "report.pdf".toList }).2.2

/-- C3: when the staged file is observed at none of the polls in the budget,
the wait raises a `TimeoutError` whose message is `"Timeout: 10 sec"`, and a
run whose browser steps all succeeded but whose staged file never appears
fails with that error and leaves the whole filesystem — in particular the
destination path — exactly in its pre-run state. -/
theorem C3_wait_timeout_no_move (terr : Err) (env : Env) (sp dp : String)
    (srcName dstName : List Char) (fs : FS)
    (hobs : ∀ i, i < waitTimeout → env.stagedObs i = none)
    (hf : env.fileInputFound = true) (ht : env.translateOk = true)
    (hd : env.downloadClickable = true) :
    wait env.stagedObs sp dp fs =
      Except.error (Err.timeoutError (timeoutMsg waitTimeout)) ∧
    timeoutMsg waitTimeout = "Timeout: 10 sec" ∧
    (runGen terr env sp dp srcName dstName fs).outcome =
      Except.error (Err.timeoutError (timeoutMsg waitTimeout)) ∧
    (runGen terr env sp dp srcName dstName fs).fs = fs := by
  have hw : wait env.stagedObs sp dp fs =
      Except.error (Err.timeoutError (timeoutMsg waitTimeout)) := by
    unfold wait
    exact waitFrom_timeout env.stagedObs sp dp fs waitTimeout 0
      (fun j _ hj => hobs j (by omega))
  refine ⟨hw, rfl, ?_, ?_⟩ <;> simp [runGen, hf, ht, hd, hw]

/-- C3 witness: in the environment where the staged file never appears, the
run over the pre-existing `report_ja.pdf` filesystem times out with the
reported message and leaves the filesystem untouched. -/
theorem C3_wait_timeout_no_move_witness :
    wait envNoFile.stagedObs "staging/report.pdf" "report_ja.pdf" oldFS =
      Except.error (Err.timeoutError (timeoutMsg waitTimeout)) ∧
    timeoutMsg waitTimeout = "Timeout: 10 sec" ∧
    (runGen Err.seleniumTimeout envNoFile "staging/report.pdf" "report_ja.pdf"
      "report.pdf".toList "report_ja.pdf".toList oldFS).outcome =
      Except.error (Err.timeoutError (timeoutMsg waitTimeout)) ∧
    (runGen Err.seleniumTimeout envNoFile "staging/report.pdf" "report_ja.pdf"
      "report.pdf".toList "report_ja.pdf".toList oldFS).fs = oldFS :=
  C3_wait_timeout_no_move Err.seleniumTimeout envNoFile "staging/report.pdf"
    "report_ja.pdf" "report.pdf".toList "report_ja.pdf".toList oldFS
    (fun _ _ => rfl) rfl rfl rfl

/-- C4: the claim fails on the jppdf variant.  jppdf's completion wait (in
`Driver.save`) is performed by calling the generic click helper, so its
timeout is exactly the generic UI-click timeout and varies with it — it is
not independent.  The pdfjp variant does satisfy the claim: its completion
wait uses the dedicated constant `TRANSLATION_TIMEOUT = 20`, independent of
and at least as large as the generic 10-second click timeout. -/
theorem C4_completion_timeout_wiring :
    (¬ ∀ t, jppdfCompletionWaitTimeout t =
      jppdfCompletionWaitTimeout jppdfClickTimeout) ∧
    jppdfCompletionWaitTimeout jppdfClickTimeout = jppdfClickTimeout ∧
    (∀ t, pdfjpCompletionWaitTimeout t = TRANSLATION_TIMEOUT) ∧
    jppdfClickTimeout ≤ TRANSLATION_TIMEOUT := by
  refine ⟨fun h => ?_, rfl, fun t => rfl, by decide⟩
  have h11 := h 11
  simp [jppdfCompletionWaitTimeout, jppdfClickTimeout] at h11

/-- C5: a run reports `Done.` only if the polling loop observed the staged
file at one of its at most `waitTimeout` polls; and `Done.` is exactly the
final log record of `Driver.run`. -/
theorem C5_done_requires_observation :
    (∀ (terr : Err) (env : Env) (sp dp : String)
      (srcName dstName : List Char) (fs : FS),
      LogEvent.done ∈ (runGen terr env sp dp srcName dstName fs).logs →
      ∃ i, i < waitTimeout ∧ env.stagedObs i ≠ none) ∧
    LogEvent.render LogEvent.done = "Done." := by
  refine ⟨?_, rfl⟩
  intro terr env sp dp srcName dstName fs h
  cases hf : env.fileInputFound with
  | false => simp [runGen, hf] at h
  | true =>
    cases ht : env.translateOk with
    | false => simp [runGen, hf, ht] at h
    | true =>
      cases hd : env.downloadClickable with
      | false => simp [runGen, hf, ht, hd] at h
      | true =>
        cases hw : wait env.stagedObs sp dp fs with
        | error e => simp [runGen, hf, ht, hd, hw] at h
        | ok fs' =>
          obtain ⟨k, c, _, hk2, hkobs, _, _⟩ :=
            waitFrom_ok_spec env.stagedObs sp dp fs waitTimeout 0 fs' hw
          exact ⟨k, by omega, by rw [hkobs]; simp⟩

/-- C5 witness: in the all-success environment the run logs `Done.`, and the
theorem yields a poll at which the staged file was observed. -/
theorem C5_done_requires_observation_witness :
    ∃ i, i < waitTimeout ∧ envOk.stagedObs i ≠ none :=
  C5_done_requires_observation.1 Err.seleniumTimeout envOk
    "staging/report.pdf" "report_ja.pdf" "report.pdf".toList
    "report_ja.pdf".toList emptyFS (by decide)

/-- C6: when the download-translation button never becomes clickable within
the completion wait's timeout, the run fails with the Selenium timeout
exception, the filesystem — in particular the destination path — is exactly
its pre-run state, and neither the download click nor the file-polling wait
(hence neither the unlink nor the rename) is ever executed. -/
theorem C6_completion_timeout_aborts (terr : Err) (env : Env) (sp dp : String)
    (srcName dstName : List Char) (fs : FS)
    (hf : env.fileInputFound = true) (ht : env.translateOk = true)
    (hd : env.downloadClickable = false) :
    (runGen terr env sp dp srcName dstName fs).outcome =
      Except.error Err.seleniumTimeout ∧
    (runGen terr env sp dp srcName dstName fs).fs = fs ∧
    Step.downloadClick ∉ (runGen terr env sp dp srcName dstName fs).trace ∧
    Step.fileWait ∉ (runGen terr env sp dp srcName dstName fs).trace := by
  refine ⟨?_, ?_, ?_, ?_⟩ <;> simp [runGen, hf, ht, hd]

/-- C6 witness: the theorem instantiated in the environment whose download
button never becomes clickable, over a destination holding an old file. -/
theorem C6_completion_timeout_aborts_witness :
    (runGen Err.seleniumTimeout envNoDownload "staging/report.pdf"
      "report_ja.pdf" "report.pdf".toList "report_ja.pdf".toList oldFS).outcome
      = Except.error Err.seleniumTimeout ∧
    (runGen Err.seleniumTimeout envNoDownload "staging/report.pdf"
      "report_ja.pdf" "report.pdf".toList "report_ja.pdf".toList oldFS).fs
      = oldFS ∧
    Step.downloadClick ∉ (runGen Err.seleniumTimeout envNoDownload
      "staging/report.pdf" "report_ja.pdf" "report.pdf".toList
      "report_ja.pdf".toList oldFS).trace ∧
    Step.fileWait ∉ (runGen Err.seleniumTimeout envNoDownload
      "staging/report.pdf" "report_ja.pdf" "report.pdf".toList
      "report_ja.pdf".toList oldFS).trace :=
  C6_completion_timeout_aborts Err.seleniumTimeout envNoDownload
    "staging/report.pdf" "report_ja.pdf" "report.pdf".toList
    "report_ja.pdf".toList oldFS rfl rfl rfl

/-- C7: the claim fails on the code.  When the Chrome launch inside
`Driver.__init__` raises, the interpreter still runs `Driver.__del__` on the
partially initialised object, and `__del__` reads the never-assigned
`self.driver` attribute: teardown itself raises `AttributeError` instead of
being safe in that state. -/
theorem C7_del_unsafe_on_partial_setup :
    driverDel (driverInit { dir := ".", name := "report.pdf".toList } false) =
      Except.error (Err.attributeError "driver") ∧
    driverDel (driverInit { dir := ".", name := "report.pdf".toList } true) =
      Except.ok () := by
  exact ⟨rfl, rfl⟩

/-- C8: every run executes each workflow step at most once, the executed
steps always form an initial segment of the fixed linear order
`allSteps` (so no step is retried and no earlier step is re-entered), and a
run whose outcome is an error never reports `Done.` — the error is fatal. -/
theorem C8_linear_no_retry (terr : Err) (env : Env) (sp dp : String)
    (srcName dstName : List Char) (fs : FS) :
    (∃ rest, (runGen terr env sp dp srcName dstName fs).trace ++ rest
      = allSteps) ∧
    (∀ s : Step, ((runGen terr env sp dp srcName dstName fs).trace.count s)
      ≤ 1) ∧
    ((runGen terr env sp dp srcName dstName fs).outcome.isOk = false →
      LogEvent.done ∉ (runGen terr env sp dp srcName dstName fs).logs) := by
  cases hf : env.fileInputFound with
  | false =>
    have hr : runGen terr env sp dp srcName dstName fs =
        { outcome := Except.error (Err.noSuchElement "file"), fs := fs,
          trace := [Step.navigate, Step.selectFile], logs := [] } := by
      simp [runGen, hf]
    rw [hr]
    refine ⟨⟨[Step.translateClick, Step.completionWait, Step.downloadClick,
      Step.fileWait], rfl⟩, ?_, ?_⟩
    · intro s; cases s <;> simp [List.count_cons, List.count_nil]
    · intro _; simp
  | true =>
    cases ht : env.translateOk with
    | false =>
      have hr : runGen terr env sp dp srcName dstName fs =
          { outcome := Except.error terr, fs := fs,
            trace := [Step.navigate, Step.selectFile, Step.translateClick],
            logs := [LogEvent.selected srcName] } := by
        simp [runGen, hf, ht]
      rw [hr]
      refine ⟨⟨[Step.completionWait, Step.downloadClick, Step.fileWait],
        rfl⟩, ?_, ?_⟩
      · intro s; cases s <;> simp [List.count_cons, List.count_nil]
      · intro _
        simp
    | true =>
      cases hd : env.downloadClickable with
      | false =>
        have hr : runGen terr env sp dp srcName dstName fs =
            { outcome := Except.error Err.seleniumTimeout, fs := fs,
              trace := [Step.navigate, Step.selectFile, Step.translateClick,
                        Step.completionWait],
              logs := [LogEvent.selected srcName, LogEvent.translating] } := by
          simp [runGen, hf, ht, hd]
        rw [hr]
        refine ⟨⟨[Step.downloadClick, Step.fileWait], rfl⟩, ?_, ?_⟩
        · intro s; cases s <;> simp [List.count_cons, List.count_nil]
        · intro _
          simp
      | true =>
        cases hw : wait env.stagedObs sp dp fs with
        | error e =>
          have hr : runGen terr env sp dp srcName dstName fs =
              { outcome := Except.error e, fs := fs, trace := allSteps,
                logs := [LogEvent.selected srcName, LogEvent.translating,
                         LogEvent.savingAs dstName] } := by
            simp [runGen, hf, ht, hd, hw]
          rw [hr]
          refine ⟨⟨[], by simp⟩, ?_, ?_⟩
          · intro s; cases s <;> simp [allSteps, List.count_cons, List.count_nil]
          · intro _
            simp
        | ok fs' =>
          have hr : runGen terr env sp dp srcName dstName fs =
              { outcome := Except.ok (), fs := fs', trace := allSteps,
                logs := [LogEvent.selected srcName, LogEvent.translating,
                         LogEvent.savingAs dstName, LogEvent.done] } := by
            simp [runGen, hf, ht, hd, hw]
          rw [hr]
          refine ⟨⟨[], by simp⟩, ?_, ?_⟩
          · intro s; cases s <;> simp [allSteps, List.count_cons, List.count_nil]
          · intro h
            exact Bool.noConfusion h

/-- C8 witness: the theorem instantiated in the never-clickable environment. -/
theorem C8_linear_no_retry_witness :
    (∃ rest, (runGen Err.seleniumTimeout envNoDownload "staging/report.pdf"
      "report_ja.pdf" "report.pdf".toList "report_ja.pdf".toList
      emptyFS).trace ++ rest = allSteps) ∧
    (∀ s : Step, ((runGen Err.seleniumTimeout envNoDownload
      "staging/report.pdf" "report_ja.pdf" "report.pdf".toList
      "report_ja.pdf".toList emptyFS).trace.count s) ≤ 1) ∧
    ((runGen Err.seleniumTimeout envNoDownload "staging/report.pdf"
      "report_ja.pdf" "report.pdf".toList "report_ja.pdf".toList
      emptyFS).outcome.isOk = false →
      LogEvent.done ∉ (runGen Err.seleniumTimeout envNoDownload
        "staging/report.pdf" "report_ja.pdf" "report.pdf".toList
        "report_ja.pdf".toList emptyFS).logs) :=
  C8_linear_no_retry Err.seleniumTimeout envNoDownload "staging/report.pdf"
    "report_ja.pdf" "report.pdf".toList "report_ja.pdf".toList emptyFS

/-- C9: `is_url` holds exactly when the target string begins with the four
characters `http`; consequently a local-looking name beginning with `http`
is routed to `download` and a non-`http` scheme is treated as a local
path. -/
theorem C9_is_url_prefix_http :
    (∀ t : String, is_url t = true ↔ ∃ r, t.toList = "http".toList ++ r) ∧
    is_url "httpfoo.pdf" = true ∧
    is_url "ftp://example.com/a.pdf" = false ∧
    resolveTarget "httpfoo.pdf" = Resolved.downloaded "httpfoo.pdf" ∧
    resolveTarget "ftp://example.com/a.pdf" =
      Resolved.localPath "ftp://example.com/a.pdf" := by
  refine ⟨fun t => beginsWith_iff "http".toList t.toList, ?_, ?_, ?_, ?_⟩ <;>
    decide

/-- C9 witness: the classification applied to a local-looking name. -/
theorem C9_is_url_prefix_http_witness :
    resolveTarget "httpfoo.pdf" = Resolved.downloaded "httpfoo.pdf" :=
  C9_is_url_prefix_http.2.2.2.1

/-- C10: a successful `download` writes the fetched bytes to the file named
after the final path segment of the URL, with `.pdf` appended exactly when
that segment does not already end in `.pdf`; the write lands in the current
working directory, replaces whatever content was there, and leaves every
other path untouched. -/
theorem C10_download_naming (url m : String) (content : Content) (cwd : FS)
    (fn : String) (fs' : FS)
    (h : download true (some m) url content cwd = Except.ok (fn, fs')) :
    fn = String.mk (if endsWithL (pyPathName url) ".pdf".toList
      then pyPathName url else pyPathName url ++ ".pdf".toList) ∧
    fs' fn = some content ∧
    (∀ p, p ≠ fn → fs' p = cwd p) := by
  simp [download] at h
  obtain ⟨h1, h2⟩ := h
  subst h1
  subst h2
  refine ⟨by simp [downloadName], by simp [fsUpdate], ?_⟩
  intro p hp
  simp [fsUpdate, hp]

/-- C10 witness: fetching `https://example.com/docs/report` (no `.pdf` on the
final segment) over a working directory that already holds `report.pdf`: the
theorem applies and reports the overwrite. -/
theorem C10_download_naming_witness :
    String.mk (downloadName "https://example.com/docs/report") =
      String.mk (if endsWithL (pyPathName "https://example.com/docs/report")
        ".pdf".toList then pyPathName "https://example.com/docs/report"
        else pyPathName "https://example.com/docs/report" ++ ".pdf".toList) ∧
    fsUpdate oldCwd (String.mk (downloadName "https://example.com/docs/report"))
      (some "NEW") (String.mk (downloadName "https://example.com/docs/report"))
      = some "NEW" ∧
    (∀ p, p ≠ String.mk (downloadName "https://example.com/docs/report") →
      fsUpdate oldCwd
        (String.mk (downloadName "https://example.com/docs/report"))
        (some "NEW") p = oldCwd p) :=
  C10_download_naming "https://example.com/docs/report" "title" "NEW" oldCwd
    (String.mk (downloadName "https://example.com/docs/report"))
    (fsUpdate oldCwd
      (String.mk (downloadName "https://example.com/docs/report"))
      (some "NEW")) rfl

end JpPdf
